import Mathlib

/-!
Verification development for the t2i-prompt-refiner ingestion pipeline.

The definitions below are shallow embeddings of the Python sources:
  modules/db_utils.py           (cursor store)
  modules/processor.py          (ingest counters)
  modules/datafetcher/refined_data_utils.py (process_item)
  modules/datafetcher/qdrant_utils.py       (store_in_vector_db)
  modules/fetcher.py            (paged fetch, accumulating variant)
  modules/llmchat/qdrant.py     (RAG retrieval)
  old_file/fetch_prompts.py     (legacy pipeline: process_item,
                                 process_and_store, fetch_data,
                                 delete_non_target_models)
Python strings are modelled by Lean `String`; `str.strip()` and
`str.lower()` are modelled by `pyStrip` and `pyLower` below, which act on
the character list exactly as CPython does on ASCII data.  `None`-able
values are `Option`; dictionaries that the code only reads fixed keys
from become structures whose fields are `Option` (a missing key is
`none`, and `d.get(k, v)` is `Option.getD`).  External services (SQLite
row, Qdrant collection) are explicit state values threaded through the
functions.
-/

/-- Model of Python `str.strip()` on a character list: drop leading and
trailing whitespace. -/
def stripL (l : List Char) : List Char :=
  ((l.dropWhile Char.isWhitespace).reverse.dropWhile Char.isWhitespace).reverse

/-- Model of Python `str.strip()`. -/
def pyStrip (s : String) : String := ⟨stripL s.data⟩

/-- Model of Python `str.lower()` (ASCII case folding). -/
def pyLower (s : String) : String := ⟨s.data.map Char.toLower⟩

/-- The `app_settings` singleton row for the key `last_cursor`.
`cursorRow = none` models "no row"; `some none` models a row whose
`value` column is SQL NULL; `some (some v)` a row holding the text `v`. -/
structure AppDb where
  cursorRow : Option (Option String)
  deriving Repr, DecidableEq

/-- The normalisation block at the top of `save_cursor`
(modules/db_utils.py lines 308-314): `None` stays `None`, otherwise the
string is stripped and an empty result becomes `None`. -/
def cursorStr (cursor : Option String) : Option String :=
  match cursor with
  | none => none
  | some s =>
    let t := pyStrip s
    if t = "" then none else some t

/-- `save_cursor` (modules/db_utils.py lines 302-354): normalise, upsert
the singleton row, then re-read the row and return the verified stored
value. -/
def save_cursor (cursor : Option String) (_db : AppDb) : Option String × AppDb :=
  let cs := cursorStr cursor
  let db' : AppDb := { cursorRow := some cs }
  let saved_value := db'.cursorRow.getD none
  (saved_value, db')

/-- `load_cursor` (modules/db_utils.py lines 356-381): return the stored
value only when the row exists, the value is truthy, its lower-casing is
not the literal string `none`, and it is non-empty after stripping. -/
def load_cursor (db : AppDb) : Option String :=
  match db.cursorRow with
  | none => none
  | some none => none
  | some (some v) =>
    if v = "" then none
    else if pyLower v = "none" then none
    else
      let c := pyStrip v
      if c = "" then none else some c

/-- `clear_cursor` (modules/db_utils.py lines 383-394): delete the row. -/
def clear_cursor (_db : AppDb) : AppDb := { cursorRow := none }

/-! ## modules/processor.py : `process_and_store` counters

The loop body of `process_and_store` touches three dynamic outcomes per
item: the truthiness test `not item`, the result of `process_item`, and
the result of `store_in_vector_db`; any exception raised inside the
per-item `try` is caught and counted.  `ItemEval` records, for one input
item, which of those four mutually exclusive paths its iteration takes,
which is all the counter updates depend on. -/
inductive ItemEval where
  /-- `not item` is true: the item is `None`/falsy. -/
  | falsy : ItemEval
  /-- the loop body raised; the per-item handler catches it. -/
  | raises : ItemEval
  /-- `process_item` returned `None`. -/
  | procNone : ItemEval
  /-- `process_item` returned a record and `store_in_vector_db`
  returned `ok`. -/
  | procSome (ok : Bool) : ItemEval
  deriving Repr, DecidableEq

/-- The four per-run counters of `process_and_store`. -/
structure RunStats where
  processed : Nat
  stored : Nat
  skipped : Nat
  errors : Nat
  deriving Repr, DecidableEq

namespace Proc

/-- One iteration of the `for item in data` loop of `process_and_store`
(modules/processor.py lines 15-37).  Note that `processed += 1` sits at
the END of the `try` block, so a falsy item (`continue` after
`skipped += 1`) and a raising item (`errors += 1` in the handler) do not
increment `processed`. -/
def pasStep (s : RunStats) (e : ItemEval) : RunStats :=
  match e with
  | .falsy => { s with skipped := s.skipped + 1 }
  | .raises => { s with errors := s.errors + 1 }
  | .procNone => { s with skipped := s.skipped + 1, processed := s.processed + 1 }
  | .procSome ok =>
    if ok then { s with stored := s.stored + 1, processed := s.processed + 1 }
    else { s with skipped := s.skipped + 1, processed := s.processed + 1 }

/-- `process_and_store` (modules/processor.py lines 5-41): early return
of four zeros on falsy input, otherwise the per-item loop. -/
def process_and_store (data : List ItemEval) : RunStats :=
  if data = [] then ⟨0, 0, 0, 0⟩
  else data.foldl pasStep ⟨0, 0, 0, 0⟩

/-- Number of falsy items in a run's input. -/
def countFalsy (data : List ItemEval) : Nat :=
  data.countP (fun e => e = .falsy)

/-- Number of items whose loop iteration raised. -/
def countRaises (data : List ItemEval) : Nat :=
  data.countP (fun e => e = .raises)

end Proc

/-! ## modules/datafetcher/refined_data_utils.py : `process_item` -/

namespace Refined

/-- The keys `process_item` reads from `item["meta"]`.  A missing key is
`none`. -/
structure MetaDict where
  Model : Option String := none
  prompt : Option String := none
  negativePrompt : Option String := none
  deriving Repr, DecidableEq

/-- The keys `process_item` reads from `item["stats"]`. -/
structure StatsDict where
  heartCount : Option Int := none
  likeCount : Option Int := none
  laughCount : Option Int := none
  cryCount : Option Int := none
  commentCount : Option Int := none
  deriving Repr, DecidableEq

/-- The keys `process_item` reads from a dict item.  `meta = none`
models both a missing `meta` key and a `None` value (the code collapses
the two with `item.get("meta") or {}`); likewise `stats = none` models a
missing `stats` key. -/
structure ItemDict where
  id : Option String := none
  name : Option String := none
  itemMeta : Option MetaDict := none
  baseModel : Option String := none
  url : Option String := none
  width : Option Int := none
  height : Option Int := none
  nsfw : Option Bool := none
  nsfwLevel : Option String := none
  postId : Option String := none
  username : Option String := none
  stats : Option StatsDict := none
  createdAt : Option String := none
  hash : Option String := none
  deriving Repr, DecidableEq

/-- An arbitrary Python value reaching `process_item`:  `null` is any
falsy value (rejected by the initial `if not item` check); `nondict` is
any other non-dict value, on which the first `item.get` call raises
`AttributeError`, which the function's handler turns into `None`. -/
inductive PyItem where
  | null : PyItem
  | nondict : PyItem
  | dict (d : ItemDict) : PyItem
  deriving Repr, DecidableEq

/-- The record built by `process_item`. -/
structure ProcessedItem where
  id : String
  name : String
  model : String
  prompt : String
  negative_prompt : String
  image_url : String
  width : Int
  height : Int
  nsfw : Bool
  nsfw_level : String
  post_id : String
  username : String
  reaction_count : Int
  comment_count : Int
  created_at : String
  hash : String
  deriving Repr, DecidableEq

/-- `process_item` (modules/datafetcher/refined_data_utils.py lines
1-62).  `meta.get("Model", item.get("baseModel", ""))` evaluates the
fallback only when the `Model` key is missing; string truthiness is
emptiness. -/
def process_item (item : PyItem) : Option ProcessedItem :=
  match item with
  | .null => none
  | .nondict => none
  | .dict i =>
    let meta := i.itemMeta.getD {}
    let model := match meta.Model with
      | some m => m
      | none => i.baseModel.getD ""
    let prompt := meta.prompt.getD ""
    let negative_prompt := meta.negativePrompt.getD ""
    let image_url := i.url.getD ""
    let width := i.width.getD 0
    let height := i.height.getD 0
    let nsfw := i.nsfw.getD false
    let nsfw_level := i.nsfwLevel.getD "None"
    let post_id := i.postId.getD ""
    let username := i.username.getD ""
    let stats := i.stats.getD {}
    let reaction_count :=
      stats.heartCount.getD 0 + stats.likeCount.getD 0 +
      stats.laughCount.getD 0 + stats.cryCount.getD 0
    let comment_count := stats.commentCount.getD 0
    let p : ProcessedItem :=
      { id := i.id.getD ""
        name := i.name.getD ("Image by " ++ username)
        model := model
        prompt := prompt
        negative_prompt := negative_prompt
        image_url := image_url
        width := width
        height := height
        nsfw := nsfw
        nsfw_level := nsfw_level
        post_id := post_id
        username := username
        reaction_count := reaction_count
        comment_count := comment_count
        created_at := i.createdAt.getD ""
        hash := i.hash.getD "" }
    if p.id = "" ∨ p.image_url = "" then none else some p

end Refined

/-! ## modules/datafetcher/qdrant_utils.py : `store_in_vector_db` -/

namespace QdrantUtils

/-- `VECTOR_SIZE` (qdrant_utils.py line 12). -/
def VECTOR_SIZE : Nat := 384

/-- The payload dict built at qdrant_utils.py lines 47-63: every
`ProcessedItem` field except `id`. -/
structure VPayload where
  name : String
  model : String
  prompt : String
  negative_prompt : String
  image_url : String
  width : Int
  height : Int
  nsfw : Bool
  nsfw_level : String
  post_id : String
  username : String
  reaction_count : Int
  comment_count : Int
  created_at : String
  hash : String
  deriving Repr, DecidableEq

/-- Payload of a processed item, as assembled by `store_in_vector_db`. -/
def payloadOf (item : Refined.ProcessedItem) : VPayload :=
  { name := item.name, model := item.model, prompt := item.prompt
    negative_prompt := item.negative_prompt, image_url := item.image_url
    width := item.width, height := item.height, nsfw := item.nsfw
    nsfw_level := item.nsfw_level, post_id := item.post_id
    username := item.username, reaction_count := item.reaction_count
    comment_count := item.comment_count, created_at := item.created_at
    hash := item.hash }

/-- A point of the `civitai_images` collection as written by
`store_in_vector_db`.  Vector entries are modelled as rationals. -/
structure VPoint where
  id : String
  vector : List ℚ
  payload : VPayload

/-- The `PointStruct` built by `store_in_vector_db` (qdrant_utils.py
lines 40-64).  `rand` is the process's `np.random.rand(VECTOR_SIZE)`
draw for this call: the code stores this placeholder vector, not an
embedding (its own comment reads "Generate a placeholder vector
(replace with actual embedding later)"). -/
def store_point (rand : Fin VECTOR_SIZE → ℚ) (item : Refined.ProcessedItem) : VPoint :=
  { id := item.id, vector := List.ofFn rand, payload := payloadOf item }

/-- Qdrant point upsert: replace the point with the same id, else
append. -/
def vupsert (coll : List VPoint) (pt : VPoint) : List VPoint :=
  if coll.any (fun p => p.id = pt.id) then
    coll.map (fun p => if p.id = pt.id then pt else p)
  else coll ++ [pt]

/-- `store_in_vector_db` (qdrant_utils.py lines 33-76): build the point,
upsert it, report success. -/
def store_in_vector_db (rand : Fin VECTOR_SIZE → ℚ) (item : Refined.ProcessedItem)
    (coll : List VPoint) : Bool × List VPoint :=
  (true, vupsert coll (store_point rand item))

end QdrantUtils

/-! ## old_file/fetch_prompts.py : legacy ingest pipeline

Vectors are opaque here: the pipeline is parametric in the vector type
`V` and the embedding function, since no claim depends on the numeric
content of a legacy embedding. -/

namespace OldFile

/-- The keys the legacy `process_item` reads from `item["meta"]`. -/
structure OldMetaDict where
  prompt : Option String := none
  baseModel : Option String := none
  deriving Repr, DecidableEq

/-- A dict item that passed the `'id' in item` check of the legacy
`process_item`.  `meta = none` models a missing `meta` key, a `None`
value, an empty dict, or a non-dict value: the code rejects all of them
at the `if not meta or not isinstance(meta, dict)` check (for the empty
dict the subsequent empty-prompt check would reject as well, so the
collapse is behaviour-preserving). -/
structure OldItemDict where
  id : String
  url : Option String := none
  itemMeta : Option OldMetaDict := none
  deriving Repr, DecidableEq

/-- Input to the legacy `process_item`: `invalid` covers `None`,
non-dict values and dicts without an `id` key, all rejected by the first
check. -/
inductive OldPyItem where
  | invalid : OldPyItem
  | dict (d : OldItemDict) : OldPyItem
  deriving Repr, DecidableEq

/-- The payload written by the legacy `process_item`
(fetch_prompts.py lines 115-120). -/
structure OldPayload where
  id : String
  url : String
  baseModel : Option String
  itemMeta : OldMetaDict
  deriving Repr, DecidableEq

/-- A point of the legacy `civitai_images` collection. -/
structure OldPoint (V : Type) where
  id : String
  vector : V
  payload : OldPayload
  deriving Repr, DecidableEq

/-- Qdrant point upsert for the legacy collection. -/
def oldUpsert {V : Type} (coll : List (OldPoint V)) (pt : OldPoint V) : List (OldPoint V) :=
  if coll.any (fun p => p.id = pt.id) then
    coll.map (fun p => if p.id = pt.id then pt else p)
  else coll ++ [pt]

/-- The legacy `process_item` (old_file/fetch_prompts.py lines 54-131).
Returns the processed raw item (the code returns `item` itself), the
collection after its own upsert, and the number of `model.encode` calls
the invocation made.  The duplicate check (a `scroll` with an exact
filter on the payload `id` field, lines 65-84) runs BEFORE the meta,
prompt and model checks and before any embedding. -/
def process_item {V : Type} (targets : List String) (embed : String → V)
    (coll : List (OldPoint V)) (item : OldPyItem) :
    Option OldItemDict × List (OldPoint V) × Nat :=
  match item with
  | .invalid => (none, coll, 0)
  | .dict i =>
    if coll.any (fun p => p.payload.id = i.id) then (none, coll, 0)
    else
      match i.itemMeta with
      | none => (none, coll, 0)
      | some m =>
        let prompt := pyStrip (m.prompt.getD "")
        if prompt = "" then (none, coll, 0)
        else
          let base_model := m.baseModel.getD "Unknown"
          if targets.contains base_model then
            let embedding := embed prompt
            let pt : OldPoint V :=
              { id := i.id, vector := embedding
                payload := { id := i.id, url := i.url.getD ""
                             baseModel := some base_model, itemMeta := m } }
            (some i, oldUpsert coll pt, 1)
          else (none, coll, 0)

/-- One iteration of the legacy `process_and_store` loop
(fetch_prompts.py lines 291-311).  `store_in_vector_db` is an unresolved
name in old_file/fetch_prompts.py (it is neither defined nor imported
there), so whenever `process_item` returns a truthy item the call raises
`NameError`, which the per-item handler counts as an error;
`processed += 1` is only reached when `process_item` returned `None`. -/
def oldStep {V : Type} (targets : List String) (embed : String → V)
    (st : RunStats × List (OldPoint V)) (item : OldPyItem) :
    RunStats × List (OldPoint V) :=
  let r := process_item targets embed st.2 item
  match r.1 with
  | some _ => ({ st.1 with errors := st.1.errors + 1 }, r.2.1)
  | none => ({ st.1 with processed := st.1.processed + 1 }, r.2.1)

/-- The legacy `process_and_store` (old_file/fetch_prompts.py lines
273-334): early return on falsy input, then the per-item loop. -/
def process_and_store {V : Type} (targets : List String) (embed : String → V)
    (data : List OldPyItem) (coll : List (OldPoint V)) :
    RunStats × List (OldPoint V) :=
  if data = [] then (⟨0, 0, 0, 0⟩, coll)
  else data.foldl (oldStep targets embed) (⟨0, 0, 0, 0⟩, coll)

/-- `delete_non_target_models` (old_file/fetch_prompts.py lines
639-674): scroll ONE page of at most 1000 records, collect the ids whose
payload `baseModel` (default "Unknown") is not in the target list, bulk
delete them if any, and return how many were collected.  There is no
loop over further scroll pages, so records beyond the first 1000 are
never examined. -/
def delete_non_target_models {V : Type} (targets : List String)
    (coll : List (OldPoint V)) : Nat × List (OldPoint V) :=
  let records := coll.take 1000
  let points_to_delete :=
    (records.filter
      (fun r => ¬ targets.contains (r.payload.baseModel.getD "Unknown"))).map
      (fun r => r.id)
  if points_to_delete.isEmpty then (0, coll)
  else (points_to_delete.length,
        coll.filter (fun p => ¬ points_to_delete.contains p.id))

end OldFile

/-! ## Fetch engines

A run consumes an oracle list of upstream responses, one per HTTP
request, in order.  `Page.err` is a non-200 response or a raised network
exception; an exhausted oracle likewise models a request that fails.
Items are opaque (`α`). -/

/-- One upstream response. -/
inductive Page (α : Type) where
  | err : Page α
  | ok (items : List α) (next : Option String) : Page α
  deriving Repr, DecidableEq

/-- Python truthiness of an optional string: `None` and `""` are falsy. -/
def pyTruthyOptStr (o : Option String) : Bool :=
  match o with
  | none => false
  | some s => s ≠ ""

namespace OldFile

/-- The `while len(all_data) < target_count` loop of the legacy
`fetch_data` (old_file/fetch_prompts.py lines 216-262).  Returns the
accumulated items, the trace of `cursor` parameters sent with each
request (in order), and the cursor-store state.  `cursorParam` is the
current `params["cursor"]` (absent = `none`); `lastCursor` is the local
`last_cursor` variable, initialised to `None` by the caller and never to
the resume cursor.  A fresh non-empty `nextCursor` different from
`last_cursor` is stripped, saved through `save_cursor`, and becomes the
next request's cursor; anything else breaks the loop. -/
def fetchLoop {α : Type} (target : Nat) (acc : List α)
    (cursorParam lastCursor : Option String) (db : AppDb)
    (pages : List (Page α)) : List α × List (Option String) × AppDb :=
  if target ≤ acc.length then (acc, [], db)
  else
    match pages with
    | [] => (acc, [cursorParam], db)
    | .err :: _ => (acc, [cursorParam], db)
    | .ok items next :: rest =>
      if items.isEmpty then (acc, [cursorParam], db)
      else
        let acc' := acc ++ items
        if acc'.length < target ∧ pyTruthyOptStr next then
          let nc := pyStrip (next.getD "")
          if nc ≠ "" ∧ some nc ≠ lastCursor then
            let sv := save_cursor (some nc) db
            if pyTruthyOptStr sv.1 then
              let r := fetchLoop target acc' sv.1 (some nc) sv.2 rest
              (r.1, cursorParam :: r.2.1, r.2.2)
            else (acc', [cursorParam], sv.2)
          else (acc', [cursorParam], db)
        else (acc', [cursorParam], db)

/-- The legacy `fetch_data` (old_file/fetch_prompts.py lines 181-271):
resolve the initial cursor from the session value (only in
continue-from-last mode, stripped, empty treated as absent), run the
page loop with `last_cursor = None`, and return `all_data[:target]`
together with the request-cursor trace and the cursor store. -/
def fetch_data {α : Type} (target : Nat) (sessionCursor : Option String)
    (continue_from_last : Bool) (pages : List (Page α)) (db : AppDb) :
    List α × List (Option String) × AppDb :=
  let c0 : Option String :=
    if continue_from_last ∧ pyTruthyOptStr sessionCursor then
      let cursor_value := pyStrip (sessionCursor.getD "")
      if cursor_value ≠ "" then some cursor_value else none
    else none
  let r := fetchLoop target [] c0 none db pages
  (r.1.take target, r.2.1, r.2.2)

end OldFile

namespace Fetcher

/-- The `while total_fetched < target_count` loop of `fetch_data`
(modules/fetcher.py lines 26-62).  The whole loop sits inside one `try`,
whose handler returns `None`: an error page (or a failing request)
abandons the accumulated items.  After a successful page the raw
`nextCursor` is saved through `save_cursor` when truthy, else the loop
breaks; the inner `if total_fetched >= target_count: break` is subsumed
by the loop guard. -/
def fetchLoop {α : Type} (target total : Nat) (acc : List α)
    (_cursor : Option String) (db : AppDb) (pages : List (Page α)) :
    Option (List α) × AppDb :=
  if target ≤ total then (some acc, db)
  else
    match pages with
    | [] => (none, db)
    | .err :: _ => (none, db)
    | .ok items next :: rest =>
      if items.isEmpty then (some acc, db)
      else
        if pyTruthyOptStr next then
          let sv := save_cursor next db
          fetchLoop target (total + items.length) (acc ++ items) next sv.2 rest
        else (some (acc ++ items), db)

/-- `fetch_data` (modules/fetcher.py lines 9-68): resolve the cursor via
`load_cursor` in continue mode, then run the loop; `None` signals a
failed run. -/
def fetch_data {α : Type} (target : Nat) (continue_from_last : Bool)
    (pages : List (Page α)) (db : AppDb) : Option (List α) × AppDb :=
  let c0 := if continue_from_last then load_cursor db else none
  fetchLoop target 0 [] c0 db pages

end Fetcher

/-! ## modules/llmchat/qdrant.py : RAG retrieval -/

namespace Rag

/-- The dict built for each hit by `get_similar_prompts`
(modules/llmchat/qdrant.py lines 75-81). -/
structure PromptData where
  prompt : String
  score : ℚ
  negative_prompt : String
  name : String
  model_params : List (String × String)
  deriving Repr, DecidableEq

/-- Modelled from the spec: the Vector Index's filtered nearest-neighbor
search (`client.search`, a call into the external Qdrant service, spec
sections 4.3 and 6) returns up to `k` points whose payload field `model`
exactly matches the filter value, ordered by descending cosine score.
The similarity of the query vector against a stored vector is abstracted
as the parameter `score`. -/
def search (score : List ℚ → List ℚ → ℚ) (query_vector : List ℚ)
    (model_name : String) (k : Nat) (coll : List QdrantUtils.VPoint) :
    List (QdrantUtils.VPoint × ℚ) :=
  ((((coll.filter (fun p => p.payload.model = model_name)).map
      (fun p => (p, score query_vector p.vector))).insertionSort
      (fun a b => b.2 ≤ a.2)).take k)

/-- `get_similar_prompts` (modules/llmchat/qdrant.py lines 39-91): embed
the query, search with the exact-match `model` filter and limit `k`,
keep hits with a truthy payload `prompt`, and package them in order.
Stored payloads (written by `store_in_vector_db`) carry no
`model_params` key, so `hit.payload.get("model_params", {})` is always
the empty dict. -/
def get_similar_prompts (score : List ℚ → List ℚ → ℚ)
    (embedText : String → List ℚ) (coll : List QdrantUtils.VPoint)
    (prompt model_name : String) (k : Nat) : List PromptData :=
  let query_vector := embedText prompt
  let search_result := search score query_vector model_name k coll
  (search_result.filter (fun h => h.1.payload.prompt ≠ "")).map
    (fun h => { prompt := h.1.payload.prompt
                score := h.2
                negative_prompt := h.1.payload.negative_prompt
                name := h.1.payload.name
                model_params := [] })

end Rag

/-! ## Concrete inputs used by witnesses and counterexamples -/

/-- A raw item with id and url present, `meta` missing, and a `stats`
dict carrying only `heartCount`. -/
def c10item : Refined.ItemDict :=
  { id := some "123", url := some "http://x"
    stats := some { heartCount := some 2 } }

/-- The record `process_item` produces for `c10item`. -/
def c10out : Refined.ProcessedItem :=
  { id := "123", name := "Image by ", model := "", prompt := ""
    negative_prompt := "", image_url := "http://x", width := 0, height := 0
    nsfw := false, nsfw_level := "None", post_id := "", username := ""
    reaction_count := 2, comment_count := 0, created_at := "", hash := "" }

/-- A meta dict passing the legacy prompt and model checks. -/
def c2meta : OldFile.OldMetaDict := { prompt := some "cat", baseModel := some "A" }

/-- A raw legacy item that is valid and new on first ingestion. -/
def c2item : OldFile.OldItemDict :=
  { id := "1", url := some "u", itemMeta := some c2meta }

/-- The `PointStruct` the legacy `process_item` upserts for an item `d`
with meta `m` that passed all checks (old_file/fetch_prompts.py lines
109-123). -/
def OldFile.storedPoint {V : Type} (embed : String → V)
    (d : OldFile.OldItemDict) (m : OldFile.OldMetaDict) : OldFile.OldPoint V :=
  { id := d.id
    vector := embed (pyStrip (m.prompt.getD ""))
    payload := { id := d.id, url := d.url.getD ""
                 baseModel := some (m.baseModel.getD "Unknown"), itemMeta := m } }

/-- An allow-listed point (category `A`) for the deletion-sweep
scenario. -/
def c9ptA : OldFile.OldPoint Unit :=
  { id := "a", vector := ()
    payload := { id := "a", url := "", baseModel := some "A", itemMeta := {} } }

/-- A non-allow-listed point (category `B`) sitting beyond the first
1000 records. -/
def c9ptB : OldFile.OldPoint Unit :=
  { id := "b", vector := ()
    payload := { id := "b", url := "", baseModel := some "B", itemMeta := {} } }

instance : IsTotal (QdrantUtils.VPoint × ℚ) (fun a b => b.2 ≤ a.2) :=
  ⟨fun a b => le_total b.2 a.2⟩

instance : IsTrans (QdrantUtils.VPoint × ℚ) (fun a b => b.2 ≤ a.2) :=
  ⟨fun _ _ _ h₁ h₂ => le_trans h₂ h₁⟩

/-! # Helper lemmas -/

theorem dropWhile_head?_not {α : Type} (p : α → Bool) (l : List α) (x : α)
    (h : (l.dropWhile p).head? = some x) : ¬ p x := by
  induction l with
  | nil => simp [List.dropWhile] at h
  | cons a t ih =>
    rw [List.dropWhile_cons] at h
    by_cases hp : p a
    · simp [hp] at h
      exact ih h
    · simp [hp] at h
      subst h
      simp [hp]

theorem dropWhile_eq_self_of_head {α : Type} (p : α → Bool) (l : List α)
    (h : ∀ x ∈ l.head?, ¬ p x) : l.dropWhile p = l := by
  cases l with
  | nil => rfl
  | cons a t =>
    simp at h
    simp [List.dropWhile_cons, h]

theorem isSuffix_getLast? {α : Type} {l s : List α} (hs : s.IsSuffix l)
    (hne : s ≠ []) : s.getLast? = l.getLast? := by
  obtain ⟨t, rfl⟩ := hs
  exact (List.getLast?_append_of_ne_nil t hne).symm

theorem stripL_head?_not (l : List Char) (x : Char)
    (h : (stripL l).head? = some x) : ¬ x.isWhitespace := by
  unfold stripL at h
  rw [List.head?_reverse] at h
  have hne : (((l.dropWhile Char.isWhitespace).reverse).dropWhile Char.isWhitespace) ≠ [] := by
    intro hnil
    rw [hnil] at h
    simp at h
  rw [isSuffix_getLast? (List.dropWhile_suffix _) hne] at h
  rw [List.getLast?_reverse] at h
  exact dropWhile_head?_not _ _ _ h

theorem stripL_getLast?_not (l : List Char) (x : Char)
    (h : (stripL l).getLast? = some x) : ¬ x.isWhitespace := by
  unfold stripL at h
  rw [List.getLast?_reverse] at h
  exact dropWhile_head?_not _ _ _ h

theorem stripL_idem (l : List Char) : stripL (stripL l) = stripL l := by
  have h₁ : (stripL l).dropWhile Char.isWhitespace = stripL l :=
    dropWhile_eq_self_of_head _ _ (fun x hx => stripL_head?_not l x hx)
  have h₂ : (stripL l).reverse.dropWhile Char.isWhitespace = (stripL l).reverse := by
    refine dropWhile_eq_self_of_head _ _ (fun x hx => ?_)
    rw [List.head?_reverse] at hx
    exact stripL_getLast?_not l x hx
  show ((((stripL l).dropWhile Char.isWhitespace).reverse).dropWhile Char.isWhitespace).reverse = stripL l
  rw [h₁, h₂, List.reverse_reverse]

theorem pyStrip_idem (s : String) : pyStrip (pyStrip s) = pyStrip s := by
  show (⟨stripL (stripL s.data)⟩ : String) = ⟨stripL s.data⟩
  rw [stripL_idem]

theorem save_cursor_fst (c : Option String) (db : AppDb) :
    (save_cursor c db).1 = cursorStr c := rfl

theorem save_cursor_snd (c : Option String) (db : AppDb) :
    (save_cursor c db).2 = ⟨some (cursorStr c)⟩ := rfl

theorem cursorStr_of_stripped (raw : String) (h : ¬ pyStrip raw = "") :
    cursorStr (some (pyStrip raw)) = some (pyStrip raw) := by
  simp [cursorStr, pyStrip_idem, h]

/-- The request trace of the legacy fetch loop is empty when the target
is already met and otherwise starts with the cursor of the first
request. -/
theorem fetchLoop_trace_head {α : Type} (target : Nat) (acc : List α)
    (cp lc : Option String) (db : AppDb) (pages : List (Page α)) :
    ((OldFile.fetchLoop target acc cp lc db pages).2.1).head?
      = if target ≤ acc.length then none else some cp := by
  unfold OldFile.fetchLoop
  split
  · simp
  · cases pages with
    | nil => simp
    | cons p rest =>
      cases p with
      | err => simp
      | ok items next =>
        dsimp only
        split
        · simp
        · split
          · split
            · split
              · simp
              · simp
            · simp
          · simp

/-- Invariant of the legacy fetch loop: once the request cursor equals
the `last_cursor` variable (which holds from the second request on), no
two consecutive requests carry the same cursor. -/
theorem fetchLoop_chain {α : Type} (pages : List (Page α)) :
    ∀ (target : Nat) (acc : List α) (c : String) (db : AppDb),
      List.Chain' (fun a b => a ≠ b)
        ((OldFile.fetchLoop target acc (some c) (some c) db pages).2.1) := by
  induction pages with
  | nil =>
    intro target acc c db
    unfold OldFile.fetchLoop
    split
    · simp
    · simp
  | cons p rest ih =>
    intro target acc c db
    unfold OldFile.fetchLoop
    split
    · simp
    · cases p with
      | err => simp
      | ok items next =>
        dsimp only
        split
        · simp
        · split
          · split
            · next hcnd =>
              rw [save_cursor_fst, cursorStr_of_stripped _ hcnd.1]
              rw [if_pos (show pyTruthyOptStr (some (pyStrip (next.getD ""))) = true by
                simp [pyTruthyOptStr, hcnd.1])]
              dsimp only
              refine List.chain'_cons'.mpr ⟨?_, ih target (acc ++ items)
                (pyStrip (next.getD "")) _⟩
              intro y hy
              rw [fetchLoop_trace_head] at hy
              split at hy
              · simp at hy
              · simp at hy
                subst hy
                exact fun hEq => hcnd.2 hEq.symm
            · simp
          · simp

/-- After the first request of a legacy fetch run (whose `last_cursor`
variable starts at `None` rather than at the resume cursor), consecutive
requests never repeat a cursor. -/
theorem fetchLoop_tail_chain {α : Type} (target : Nat) (acc : List α)
    (cp lc : Option String) (db : AppDb) (pages : List (Page α)) :
    List.Chain' (fun a b => a ≠ b)
      (((OldFile.fetchLoop target acc cp lc db pages).2.1).tail) := by
  unfold OldFile.fetchLoop
  split
  · simp
  · cases pages with
    | nil => simp
    | cons p rest =>
      cases p with
      | err => simp
      | ok items next =>
        dsimp only
        split
        · simp
        · split
          · split
            · next hcnd =>
              rw [save_cursor_fst, cursorStr_of_stripped _ hcnd.1]
              rw [if_pos (show pyTruthyOptStr (some (pyStrip (next.getD ""))) = true by
                simp [pyTruthyOptStr, hcnd.1])]
              dsimp only
              exact fetchLoop_chain rest target (acc ++ items)
                (pyStrip (next.getD "")) _
            · simp
          · simp

/-- Unfolding of `OldFile.oldStep` when `process_item` accepted the
item: the broken `store_in_vector_db` call raises, so only `errors`
grows. -/
theorem oldStep_some {V : Type} (targets : List String) (embed : String → V)
    (st : RunStats × List (OldFile.OldPoint V)) (item : OldFile.OldPyItem)
    (x : OldFile.OldItemDict) (coll' : List (OldFile.OldPoint V)) (n : Nat)
    (h : OldFile.process_item targets embed st.2 item = (some x, coll', n)) :
    OldFile.oldStep targets embed st item
      = ({ st.1 with errors := st.1.errors + 1 }, coll') := by
  unfold OldFile.oldStep
  rw [h]

/-- Unfolding of `OldFile.oldStep` when `process_item` rejected the
item: only `processed` grows. -/
theorem oldStep_none {V : Type} (targets : List String) (embed : String → V)
    (st : RunStats × List (OldFile.OldPoint V)) (item : OldFile.OldPyItem)
    (coll' : List (OldFile.OldPoint V)) (n : Nat)
    (h : OldFile.process_item targets embed st.2 item = (none, coll', n)) :
    OldFile.oldStep targets embed st item
      = ({ st.1 with processed := st.1.processed + 1 }, coll') := by
  unfold OldFile.oldStep
  rw [h]

/-- The foldl invariant behind counter conservation in
`Proc.process_and_store`: each iteration adds one to exactly one of the
three outcome counters, and adds one to `processed` exactly when the
item was neither falsy nor raising. -/
theorem pasStep_foldl_inv (data : List ItemEval) : ∀ (s : RunStats),
    (data.foldl Proc.pasStep s).processed + Proc.countFalsy data
        + Proc.countRaises data + (s.stored + s.skipped + s.errors)
      = (data.foldl Proc.pasStep s).stored + (data.foldl Proc.pasStep s).skipped
        + (data.foldl Proc.pasStep s).errors + s.processed := by
  induction data with
  | nil =>
    intro s
    simp [Proc.countFalsy, Proc.countRaises]
    omega
  | cons e t ih =>
    intro s
    have h := ih (Proc.pasStep s e)
    cases e with
    | falsy =>
      simp only [List.foldl_cons, Proc.pasStep, Proc.countFalsy, Proc.countRaises,
        List.countP_cons] at h ⊢
      simp at h ⊢
      omega
    | raises =>
      simp only [List.foldl_cons, Proc.pasStep, Proc.countFalsy, Proc.countRaises,
        List.countP_cons] at h ⊢
      simp at h ⊢
      omega
    | procNone =>
      simp only [List.foldl_cons, Proc.pasStep, Proc.countFalsy, Proc.countRaises,
        List.countP_cons] at h ⊢
      simp at h ⊢
      omega
    | procSome ok =>
      cases ok with
      | false =>
        simp only [List.foldl_cons, Proc.pasStep, Proc.countFalsy, Proc.countRaises,
          List.countP_cons] at h ⊢
        simp at h ⊢
        omega
      | true =>
        simp only [List.foldl_cons, Proc.pasStep, Proc.countFalsy, Proc.countRaises,
          List.countP_cons] at h ⊢
        simp at h ⊢
        omega

/-! # Claim theorems -/

/-- C1 (counterexample): on the one-element input holding a single falsy
item, `process_and_store` returns `processed = 0`, `skipped = 1`, so the
claimed invariant `processed == stored + skipped + errors` is false for
this run (0 is not 1), and the falsy item entered processing without
`processed` being incremented. -/
theorem c1_counterexample :
    Proc.process_and_store [ItemEval.falsy] = ⟨0, 0, 1, 0⟩ ∧
    ¬ ((Proc.process_and_store [ItemEval.falsy]).processed
        = (Proc.process_and_store [ItemEval.falsy]).stored
          + (Proc.process_and_store [ItemEval.falsy]).skipped
          + (Proc.process_and_store [ItemEval.falsy]).errors) := by
  decide

/-- C1 (amended): for every run of `process_and_store`,
`processed + (number of falsy items) + (number of raising items)
 = stored + skipped + errors`: a falsy item increments `skipped` but not
`processed`, and an item whose iteration raises increments `errors` but
not `processed`; `processed` counts exactly the items that complete the
loop body.  When no item is falsy and none raises this reduces to the
original `processed == stored + skipped + errors`. -/
theorem c1_amended_counter_conservation (data : List ItemEval) :
    (Proc.process_and_store data).processed + Proc.countFalsy data
        + Proc.countRaises data
      = (Proc.process_and_store data).stored
        + (Proc.process_and_store data).skipped
        + (Proc.process_and_store data).errors := by
  unfold Proc.process_and_store
  by_cases hd : data = []
  · subst hd
    simp [Proc.countFalsy, Proc.countRaises]
  · simp only [hd, if_false]
    have h := pasStep_foldl_inv data ⟨0, 0, 0, 0⟩
    simpa using h

/-- C4: `save_cursor` normalises every string token by stripping (empty
after strip becomes null), persists exactly the normalised value in the
singleton row, and returns that persisted value; consequently saving
`"  abc123  "` then loading returns `"abc123"`, saving `None` then
loading returns `None`, and saving `""` is indistinguishable from saving
`None`. -/
theorem c4_cursor_normalization :
    (∀ (db : AppDb) (s : String),
        (save_cursor (some s) db).1 = cursorStr (some s)
        ∧ (save_cursor (some s) db).2.cursorRow = some (cursorStr (some s)))
    ∧ (∀ db : AppDb,
        load_cursor (save_cursor (some "  abc123  ") db).2 = some "abc123"
        ∧ load_cursor (save_cursor none db).2 = none
        ∧ save_cursor (some "") db = save_cursor none db) := by
  constructor
  · intro db s
    exact ⟨rfl, rfl⟩
  · intro db
    refine ⟨?_, rfl, ?_⟩
    · show load_cursor ⟨some (cursorStr (some "  abc123  "))⟩ = some "abc123"
      decide
    · show (cursorStr (some ""), (⟨some (cursorStr (some ""))⟩ : AppDb))
        = (cursorStr none, (⟨some (cursorStr none)⟩ : AppDb))
      decide

/-- C5: `load_cursor` returns `None` whenever the cursor row is missing,
its stored value is SQL NULL, or the stored value lower-cases to the
literal string `none`. -/
theorem c5_cursor_none_defense (db : AppDb)
    (h : db.cursorRow = none ∨ db.cursorRow = some none
      ∨ ∃ v, db.cursorRow = some (some v) ∧ pyLower v = "none") :
    load_cursor db = none := by
  rcases h with h | h | ⟨v, h, hv⟩
  · simp [load_cursor, h]
  · simp [load_cursor, h]
  · rw [load_cursor, h]
    by_cases hv0 : v = ""
    · simp [hv0]
    · simp [hv0, hv]

/-- C5 witness: a row storing the text `NoNe` loads as `None`. -/
theorem c5_witness : load_cursor ⟨some (some "NoNe")⟩ = none :=
  c5_cursor_none_defense ⟨some (some "NoNe")⟩
    (Or.inr (Or.inr ⟨"NoNe", rfl, by decide⟩))

/-- C10: `process_item` of refined_data_utils.py is total — falsy and
non-dict inputs map to `None` (the latter via the caught
`AttributeError`) — and every record it returns has a non-empty `id`, a
non-empty `image_url`, and a `reaction_count` equal to the sum of the
four reaction counters of the item's `stats` dict, each defaulting to 0
when missing. -/
theorem c10_process_item_total_safe :
    Refined.process_item Refined.PyItem.null = none
    ∧ Refined.process_item Refined.PyItem.nondict = none
    ∧ ∀ (d : Refined.ItemDict) (p : Refined.ProcessedItem),
        Refined.process_item (Refined.PyItem.dict d) = some p →
        p.id ≠ "" ∧ p.image_url ≠ ""
        ∧ p.reaction_count =
            (d.stats.getD {}).heartCount.getD 0 + (d.stats.getD {}).likeCount.getD 0
            + (d.stats.getD {}).laughCount.getD 0 + (d.stats.getD {}).cryCount.getD 0 := by
  refine ⟨rfl, rfl, ?_⟩
  intro d p h
  simp only [Refined.process_item] at h
  split at h
  · exact absurd h (by simp)
  · next hcond =>
    push_neg at hcond
    cases h
    exact ⟨hcond.1, hcond.2, rfl⟩

/-- C10 witness: `process_item` on an item with `meta` missing and a
partial `stats` dict returns a record with non-empty id and url and
`reaction_count = 2 + 0 + 0 + 0`. -/
theorem c10_witness :
    c10out.id ≠ "" ∧ c10out.image_url ≠ ""
    ∧ c10out.reaction_count =
        (c10item.stats.getD {}).heartCount.getD 0
        + (c10item.stats.getD {}).likeCount.getD 0
        + (c10item.stats.getD {}).laughCount.getD 0
        + (c10item.stats.getD {}).cryCount.getD 0 :=
  c10_process_item_total_safe.2.2 c10item c10out (by decide)

/-- C3 (code evaluated at the failing behaviour): the vector of every
point written by `store_in_vector_db` is the process's fresh
`np.random.rand(384)` draw — it has length 384, but it is the random
placeholder, identical for any two items regardless of their prompts,
and not the embedding of the item's prompt (the code's own comment calls
it a placeholder to be replaced with the actual embedding). -/
theorem c3_placeholder_vector :
    ∀ (rand : Fin QdrantUtils.VECTOR_SIZE → ℚ) (i₁ i₂ : Refined.ProcessedItem),
      (QdrantUtils.store_point rand i₁).vector = List.ofFn rand
      ∧ ((QdrantUtils.store_point rand i₁).vector).length = 384
      ∧ (QdrantUtils.store_point rand i₁).vector
          = (QdrantUtils.store_point rand i₂).vector := by
  intro rand i₁ i₂
  refine ⟨?_, ?_, ?_⟩
  · simp only [QdrantUtils.store_point]
  · simp only [QdrantUtils.store_point, List.length_ofFn, QdrantUtils.VECTOR_SIZE]
  · simp only [QdrantUtils.store_point]

/-- C2 (counterexample): ingesting the same valid item twice through the
legacy pipeline leaves exactly one record for its id, but the second
run's counters are `processed = 1, stored = 0, skipped = 0`: the
duplicate is NOT counted as skipped (the legacy `process_and_store`
increments nothing but `processed` when `process_item` rejects a
duplicate). -/
theorem c2_counterexample :
    ((OldFile.process_and_store ["A"] (fun _ : String => true)
        [OldFile.OldPyItem.dict c2item]
        (OldFile.process_and_store ["A"] (fun _ : String => true)
          [OldFile.OldPyItem.dict c2item] ([] : List (OldFile.OldPoint Bool))).2).1.skipped = 0)
    ∧ ((OldFile.process_and_store ["A"] (fun _ : String => true)
        [OldFile.OldPyItem.dict c2item]
        (OldFile.process_and_store ["A"] (fun _ : String => true)
          [OldFile.OldPyItem.dict c2item] ([] : List (OldFile.OldPoint Bool))).2).1
        = ⟨1, 0, 0, 0⟩)
    ∧ ((OldFile.process_and_store ["A"] (fun _ : String => true)
        [OldFile.OldPyItem.dict c2item] ([] : List (OldFile.OldPoint Bool))).2.countP
          (fun p => p.payload.id = c2item.id) = 1) := by
  decide

/-- C2 (amended): ingesting a valid new Item through the legacy pipeline
and then ingesting it a second time leaves exactly one Vector Record for
its id; the second ingestion hits the duplicate check (which runs before
any embedding), computes no embedding and overwrites nothing, and its
run is counted ONLY in `processed` — neither `skipped` nor `stored` is
incremented for the duplicate. -/
theorem c2_amended_idempotent_ingest {V : Type} (targets : List String)
    (embed : String → V) (coll : List (OldFile.OldPoint V))
    (d : OldFile.OldItemDict) (m : OldFile.OldMetaDict)
    (hm : d.itemMeta = some m)
    (hp : ¬ pyStrip (m.prompt.getD "") = "")
    (hb : targets.contains (m.baseModel.getD "Unknown") = true)
    (h₁ : coll.any (fun p => p.payload.id = d.id) = false)
    (h₂ : coll.any (fun p => p.id = d.id) = false) :
    ((OldFile.process_and_store targets embed [OldFile.OldPyItem.dict d] coll).2.countP
        (fun p => p.payload.id = d.id) = 1)
    ∧ OldFile.process_item targets embed
        (OldFile.process_and_store targets embed [OldFile.OldPyItem.dict d] coll).2
        (OldFile.OldPyItem.dict d)
      = (none, (OldFile.process_and_store targets embed [OldFile.OldPyItem.dict d] coll).2, 0)
    ∧ (OldFile.process_and_store targets embed [OldFile.OldPyItem.dict d]
        (OldFile.process_and_store targets embed [OldFile.OldPyItem.dict d] coll).2)
      = (⟨1, 0, 0, 0⟩,
         (OldFile.process_and_store targets embed [OldFile.OldPyItem.dict d] coll).2) := by
  have hpi : OldFile.process_item targets embed coll (OldFile.OldPyItem.dict d)
      = (some d, coll ++ [OldFile.storedPoint embed d m], 1) := by
    simp only [OldFile.process_item, OldFile.oldUpsert, OldFile.storedPoint,
      h₁, hm, hb, h₂]
    simp [hp]
  have hrun1 : (OldFile.process_and_store targets embed [OldFile.OldPyItem.dict d] coll)
      = (⟨0, 0, 0, 1⟩, coll ++ [OldFile.storedPoint embed d m]) := by
    simp only [OldFile.process_and_store]
    simp only [List.foldl_cons, List.foldl_nil]
    rw [if_neg (by simp)]
    rw [oldStep_some targets embed (⟨0, 0, 0, 0⟩, coll) (OldFile.OldPyItem.dict d)
      d (coll ++ [OldFile.storedPoint embed d m]) 1 hpi]
  have hmem : ((coll ++ [OldFile.storedPoint (V := V) embed d m]).any
      (fun p => p.payload.id = d.id)) = true := by
    rw [List.any_append]
    simp [OldFile.storedPoint]
  have hpi2 : OldFile.process_item targets embed
      (coll ++ [OldFile.storedPoint embed d m]) (OldFile.OldPyItem.dict d)
      = (none, coll ++ [OldFile.storedPoint embed d m], 0) := by
    simp only [OldFile.process_item, hmem]
    simp
  refine ⟨?_, ?_, ?_⟩
  · simp only [hrun1]
    rw [List.countP_append]
    rw [List.countP_eq_zero.mpr (List.any_eq_false.mp h₁)]
    simp [OldFile.storedPoint]
  · simp only [hrun1]
    exact hpi2
  · simp only [hrun1]
    simp only [OldFile.process_and_store]
    simp only [List.foldl_cons, List.foldl_nil]
    rw [if_neg (by simp)]
    rw [oldStep_none targets embed
      (⟨0, 0, 0, 0⟩, coll ++ [OldFile.storedPoint embed d m])
      (OldFile.OldPyItem.dict d) (coll ++ [OldFile.storedPoint embed d m]) 0 hpi2]

/-- C2 witness: the amended statement instantiated on a concrete valid
item ingested twice into an empty collection. -/
theorem c2_witness :
    ((OldFile.process_and_store ["A"] (fun _ : String => true)
        [OldFile.OldPyItem.dict c2item] ([] : List (OldFile.OldPoint Bool))).2.countP
        (fun p => p.payload.id = c2item.id) = 1)
    ∧ OldFile.process_item ["A"] (fun _ : String => true)
        (OldFile.process_and_store ["A"] (fun _ : String => true)
          [OldFile.OldPyItem.dict c2item] ([] : List (OldFile.OldPoint Bool))).2
        (OldFile.OldPyItem.dict c2item)
      = (none, (OldFile.process_and_store ["A"] (fun _ : String => true)
          [OldFile.OldPyItem.dict c2item] ([] : List (OldFile.OldPoint Bool))).2, 0)
    ∧ (OldFile.process_and_store ["A"] (fun _ : String => true)
        [OldFile.OldPyItem.dict c2item]
        (OldFile.process_and_store ["A"] (fun _ : String => true)
          [OldFile.OldPyItem.dict c2item] ([] : List (OldFile.OldPoint Bool))).2)
      = (⟨1, 0, 0, 0⟩,
         (OldFile.process_and_store ["A"] (fun _ : String => true)
           [OldFile.OldPyItem.dict c2item] ([] : List (OldFile.OldPoint Bool))).2) :=
  c2_amended_idempotent_ingest ["A"] (fun _ : String => true)
    ([] : List (OldFile.OldPoint Bool)) c2item c2meta rfl (by decide) (by decide)
    rfl rfl

/-- C6 (counterexample): resuming with saved cursor `c` when the first
page again reports `nextCursor = c` makes the engine request cursor `c`
twice in a row — `last_cursor` starts at `None`, not at the resume
cursor, so the no-progress check does not fire on the first page. -/
theorem c6_counterexample :
    ((OldFile.fetch_data 3 (some "c") true
        [Page.ok [(1 : Nat)] (some "c")] ⟨none⟩).2.1 = [some "c", some "c"])
    ∧ ¬ List.Chain' (fun a b => a ≠ b)
        (OldFile.fetch_data 3 (some "c") true
          [Page.ok [(1 : Nat)] (some "c")] ⟨none⟩).2.1 := by
  constructor
  · decide
  · intro h
    rw [show (OldFile.fetch_data 3 (some "c") true
        [Page.ok [(1 : Nat)] (some "c")] ⟨none⟩).2.1 = [some "c", some "c"]
      from by decide] at h
    rw [List.chain'_cons] at h
    exact h.1 rfl

/-- C6 (amended): whenever a page's `nextCursor` equals the previous
page's `nextCursor` (the cursor just used), the legacy fetch loop stops
instead of issuing another request, so after the FIRST request no two
consecutive requests carry the same cursor.  The first request is the
exception the original claim misses: on a resumed run `last_cursor` is
initialised to `None` rather than to the resume cursor, so a first page
that returns the resume cursor itself leads to one repeated request. -/
theorem c6_amended_no_progress_halt {α : Type} (target : Nat)
    (sessionCursor : Option String) (continue_from_last : Bool)
    (pages : List (Page α)) (db : AppDb) :
    List.Chain' (fun a b => a ≠ b)
      (((OldFile.fetch_data target sessionCursor continue_from_last pages db).2.1).tail) := by
  unfold OldFile.fetch_data
  exact fetchLoop_tail_chain target [] _ none db pages

/-- Run of the modules fetch loop over a successful prefix of pages
followed by a failing request: every per-page cursor save happens, then
the failure makes the whole function return `none`. -/
theorem fetcherLoop_err {α : Type} (good : List (List α × String)) :
    ∀ (target total : Nat) (acc : List α) (c : Option String) (db : AppDb)
      (rest : List (Page α)),
      (∀ pr ∈ good, pr.1 ≠ []) → (∀ pr ∈ good, pr.2 ≠ "") →
      total + (good.map (fun pr => pr.1.length)).sum < target →
      Fetcher.fetchLoop target total acc c db
          ((good.map (fun pr => Page.ok pr.1 (some pr.2))) ++ Page.err :: rest)
        = (none, good.foldl (fun db2 pr => (save_cursor (some pr.2) db2).2) db) := by
  induction good with
  | nil =>
    intro target total acc c db rest _ _ hsum
    unfold Fetcher.fetchLoop
    rw [if_neg (by omega)]
    simp
  | cons pr good' ih =>
    intro target total acc c db rest hne hcur hsum
    have hsum' : total + pr.1.length
        + (good'.map (fun q => q.1.length)).sum < target := by
      simp [List.map_cons, List.sum_cons] at hsum
      omega
    unfold Fetcher.fetchLoop
    rw [if_neg (by omega)]
    simp only [List.map_cons, List.cons_append]
    rw [if_neg (by
      have := hne pr (List.mem_cons_self pr good')
      simpa [List.isEmpty_iff] using this)]
    rw [if_pos (show pyTruthyOptStr (some pr.2) = true by
      have := hcur pr (List.mem_cons_self pr good')
      simp [pyTruthyOptStr, this])]
    rw [ih target (total + pr.1.length) (acc ++ pr.1) (some pr.2)
      (save_cursor (some pr.2) db).2 rest
      (fun q hq => hne q (List.mem_cons_of_mem pr hq))
      (fun q hq => hcur q (List.mem_cons_of_mem pr hq)) hsum']
    rw [List.foldl_cons]

/-- C7 (counterexample): with one successful page (one item, cursor
`c1`) followed by a failing request, `fetch_data` of modules/fetcher.py
returns `None` — the accumulated partial page is NOT returned for
ingestion — although the cursor `c1` of the completed page is persisted. -/
theorem c7_counterexample :
    ((Fetcher.fetch_data 5 false
        [Page.ok [(1 : Nat)] (some "c1"), Page.err] ⟨none⟩).1 = none)
    ∧ ¬ ((Fetcher.fetch_data 5 false
        [Page.ok [(1 : Nat)] (some "c1"), Page.err] ⟨none⟩).1 = some [1])
    ∧ ((Fetcher.fetch_data 5 false
        [Page.ok [(1 : Nat)] (some "c1"), Page.err] ⟨none⟩).2
      = ⟨some (some "c1")⟩) := by
  refine ⟨by decide, by decide, by decide⟩

/-- C7 (amended): when an upstream fetch of modules/fetcher.py fails
mid-run after a prefix of successful pages (each non-empty, each with a
truthy `nextCursor`, with the target not yet reached), the cursor store
ends in exactly the state produced by the per-page `save_cursor` calls —
the cursor of the last successfully completed page remains persisted for
a later resume — but the run returns `None`: the partial results already
accumulated are discarded, not passed to ingestion. -/
theorem c7_amended_partial_failure {α : Type} (good : List (List α × String))
    (target : Nat) (continue_from_last : Bool) (db : AppDb)
    (rest : List (Page α))
    (hne : ∀ pr ∈ good, pr.1 ≠ [])
    (hcur : ∀ pr ∈ good, pr.2 ≠ "")
    (hsum : (good.map (fun pr => pr.1.length)).sum < target) :
    Fetcher.fetch_data target continue_from_last
        ((good.map (fun pr => Page.ok pr.1 (some pr.2))) ++ Page.err :: rest) db
      = (none, good.foldl (fun db2 pr => (save_cursor (some pr.2) db2).2) db) := by
  unfold Fetcher.fetch_data
  exact fetcherLoop_err good target 0 [] _ db rest hne hcur (by omega)

/-- C7 witness: the amended statement instantiated on one good page and
an immediately following failure. -/
theorem c7_witness :
    Fetcher.fetch_data 5 false
        [Page.ok [(1 : Nat)] (some "c1"), Page.err] ⟨none⟩
      = (none, ⟨some (some "c1")⟩) :=
  c7_amended_partial_failure [([1], "c1")] 5 false ⟨none⟩ []
    (by decide) (by decide) (by decide)

/-- C8: for every query, category filter value and `k`, the retrieval
service returns at most `k` results; every returned result originates
from a stored record whose `model` (category) field exactly matches the
filter value — records of other categories never contribute, whatever
their similarity, since the filter is applied before ranking — and the
results are ordered by descending similarity score. -/
theorem c8_retrieval_filter_order :
    ∀ (score : List ℚ → List ℚ → ℚ) (embedText : String → List ℚ)
      (coll : List QdrantUtils.VPoint) (q model_name : String) (k : Nat),
      ((Rag.get_similar_prompts score embedText coll q model_name k).length ≤ k)
      ∧ (∀ pd ∈ Rag.get_similar_prompts score embedText coll q model_name k,
          ∃ p ∈ coll, p.payload.model = model_name
            ∧ pd.prompt = p.payload.prompt
            ∧ pd.negative_prompt = p.payload.negative_prompt
            ∧ pd.name = p.payload.name)
      ∧ List.Pairwise (fun a b => b.score ≤ a.score)
          (Rag.get_similar_prompts score embedText coll q model_name k) := by
  intro score embedText coll q mn k
  simp only [Rag.get_similar_prompts, Rag.search]
  set base := (coll.filter (fun p => p.payload.model = mn)).map
    (fun p => (p, score (embedText q) p.vector)) with hbase
  set sorted := base.insertionSort (fun a b => b.2 ≤ a.2) with hsorted
  refine ⟨?_, ?_, ?_⟩
  · rw [List.length_map]
    exact le_trans (List.length_filter_le _ _) (List.length_take_le _ _)
  · intro pd hpd
    obtain ⟨h, hh, rfl⟩ := List.mem_map.mp hpd
    have hh2 := (List.mem_filter.mp hh).1
    have hmemSorted : h ∈ sorted := List.mem_of_mem_take hh2
    have hmemBase : h ∈ base :=
      ((List.perm_insertionSort _ base).mem_iff).mp hmemSorted
    obtain ⟨p, hpF, rfl⟩ := List.mem_map.mp hmemBase
    have hpColl := List.mem_filter.mp hpF
    refine ⟨p, hpColl.1, ?_, rfl, rfl, rfl⟩
    simpa using hpColl.2
  · have hs : List.Pairwise (fun a b : QdrantUtils.VPoint × ℚ => b.2 ≤ a.2) sorted :=
      List.sorted_insertionSort _ base
    have hfilt : List.Pairwise (fun a b : QdrantUtils.VPoint × ℚ => b.2 ≤ a.2)
        ((sorted.take k).filter (fun h => h.1.payload.prompt ≠ "")) :=
      (hs.sublist (List.take_sublist k sorted)).sublist (List.filter_sublist _)
    exact hfilt.map _ (fun a b hab => hab)

/-- C9 (code evaluated at the failing input): on a collection of 1001
records — 1000 allow-listed `A` records followed by one `B` record —
with allow-list `{A}`, `delete_non_target_models` examines only the
single scroll page of 1000 records, finds nothing to delete, returns
count 0 and leaves the non-allow-listed `B` record in place, although
the claim requires it to be deleted and counted. -/
theorem c9_sweep_misses_beyond_first_page :
    (OldFile.delete_non_target_models ["A"] (List.replicate 1000 c9ptA ++ [c9ptB])
      = (0, List.replicate 1000 c9ptA ++ [c9ptB]))
    ∧ (c9ptB.payload.baseModel.getD "Unknown" = "B")
    ∧ ¬ ((["A"] : List String).contains "B" = true) := by
  refine ⟨?_, rfl, by decide⟩
  have htake : (List.replicate 1000 c9ptA ++ [c9ptB]).take 1000
      = List.replicate 1000 c9ptA :=
    List.take_left' (List.length_replicate 1000 c9ptA)
  have hfilt : (List.replicate 1000 c9ptA).filter
      (fun r => ¬ (["A"] : List String).contains (r.payload.baseModel.getD "Unknown"))
      = [] := by
    apply List.filter_eq_nil_iff.mpr
    intro a ha
    rw [List.eq_of_mem_replicate ha]
    decide
  simp only [OldFile.delete_non_target_models, htake, hfilt, List.map_nil]
  rfl
